import Mathlib

/-!
Verification of the NTFS_Parser_MCP tool layer (`mcp_server.py`).

The server module wraps a set of NTFS artifact decoders (MFT, UsnJrnl,
LogFile), an image handler and a unified analyzer behind MCP tool
functions.  The decoders themselves live in a sibling package that is not
part of this repository, so they appear here as oracles inside an
environment `Env`; the control flow of every tool function is embedded
faithfully from the source.  Each tool returns either a Python dictionary
value (modelled by `PyVal`) or a propagated exception, together with the
trace of decoder invocations it performed.
-/

/-- A Python value as returned by the tool functions: strings, booleans,
natural numbers (counts and the abstracted elapsed-seconds field), `None`,
lists and string-keyed dictionaries. -/
inductive PyVal where
  | vStr : String → PyVal
  | vBool : Bool → PyVal
  | vNat : Nat → PyVal
  | vNone : PyVal
  | vList : List PyVal → PyVal
  | vDict : List (String × PyVal) → PyVal
deriving Repr

/-- First-match association-list lookup, the model of Python dict access. -/
def lookupKey : List (String × PyVal) → String → Option PyVal
  | [], _ => none
  | (k, v) :: rest, key => if k = key then some v else lookupKey rest key

/-- Access a key of a dictionary value; `none` on non-dicts. -/
def getKey (v : PyVal) (k : String) : Option PyVal :=
  match v with
  | .vDict kvs => lookupKey kvs k
  | _ => none

/-- A Python exception escaping or caught inside a tool body:
`ImportError` (carrying the missing-module message) or any other
exception (carrying `str(e)`). -/
inductive PyErr where
  | importErr : String → PyErr
  | exc : String → PyErr
deriving Repr, DecidableEq

/-- An NTFS partition as surfaced by `find_ntfs_partitions`. -/
structure Partition where
  offset : Nat
  cluster_size : Nat
deriving Repr, DecidableEq

/-- A decoder invocation performed by a tool function.  The server itself
never writes an output file: every write to an `output_path` happens
inside one of these decoder calls, so a tool run whose trace is empty has
neither started a parse nor touched its output path. -/
inductive DecoderCall where
  | mftParserNew : String → DecoderCall
  | parseMftFile : String → String → Bool → String → Bool → DecoderCall
  | parseUsnjrnlFile : String → String → Option String → String → Bool → DecoderCall
  | parseLogfileFile : String → String → String → DecoderCall
  | analyzeAll : String → Option String → Option String → Option String → String → DecoderCall
deriving Repr, DecidableEq

/-- Filesystem oracle: `Path(p).exists()` and the byte length of a file. -/
structure FsEnv where
  pathExists : String → Bool
  fileBytes : String → Nat

/-- Oracle for the MFT decoder module `src.mft_parser`: whether its import
succeeds, the fixed record size the parser derives from the boot sector,
the outcome of constructing `MFTParser(input_path)` and the outcome of
`parse_mft_file(input, output, include_deleted, output_format,
include_path)` (an `Except.error` models a raised exception with message
`str(e)`). -/
structure MftEnv where
  importOk : Bool
  recordSize : Nat
  newOk : String → Except String Unit
  run : String → String → Bool → String → Bool → Except String Unit

/-- Oracle for the UsnJrnl decoder module `src.usnjrnl_parser`:
`run input output mft_path output_format include_path`. -/
structure UsnEnv where
  importOk : Bool
  run : String → String → Option String → String → Bool → Except String Unit

/-- Oracle for the LogFile decoder module `src.logfile_parser`:
`run input output output_format`. -/
structure LogEnv where
  importOk : Bool
  run : String → String → String → Except String Unit

/-- Oracle for `src.image_handler`: whether the module import at the top
of the tool body succeeds; the combined outcome of opening the image and
scanning for NTFS partitions (an `ImportError` here models the optional
forensic-container codec being unavailable); per-partition success of the
three extraction calls; and whether the temporary MFT file exists at the
point `extract_and_analyze` checks it. -/
structure ImgEnv where
  importOk : Bool
  findPartitions : String → Except PyErr (List Partition)
  extractMft : Nat → Bool
  extractLogfile : Nat → Bool
  extractUsnjrnl : Nat → Bool
  tempMftExists : Nat → Bool

/-- Oracle for `src.analyzer`: `UnifiedAnalyzer(output_dir).analyze_all`,
taking the analyzer output directory and then the keyword arguments
`mft_path`, `logfile_path`, `usnjrnl_path` and `output_format`; on
success it returns the result path. -/
structure AnaEnv where
  importOk : Bool
  analyzeAll : String → Option String → Option String → Option String → String → Except String String

/-- The full environment a tool run observes. `elapsed` abstracts the
wall-clock seconds reported in success results; `rmtreeOk` models whether
removing the temporary extraction directory succeeds. -/
structure Env where
  fs : FsEnv
  mft : MftEnv
  usn : UsnEnv
  log : LogEnv
  img : ImgEnv
  ana : AnaEnv
  elapsed : Nat
  rmtreeOk : Bool

/-- Python truthiness of an optional string argument: `None` and the
empty string are falsy, every other string is truthy.  This is the
meaning of `bool(mft_path)` and of `if path and ...` in the source. -/
def pyTruthy : Option String → Bool
  | none => false
  | some s => !(s == "")

/-- The optional string as a Python value for result dictionaries. -/
def optVal : Option String → PyVal
  | none => .vNone
  | some s => .vStr s

/-- The formats accepted by `parse_mft`, `parse_usnjrnl`,
`extract_and_analyze` and `analyze_artifacts`. -/
def fullFormats : List String := ["csv", "json", "sqlite"]

/-- The formats accepted by `parse_logfile`. -/
def logFormats : List String := ["csv", "json"]

/-- A failure dictionary, the shape every caught error is converted to. -/
def failDict (msg : String) : PyVal :=
  .vDict [("success", .vBool false), ("error", .vStr msg)]

/-- Outcome of one tool invocation: the value returned to the caller (or
the exception that propagated), and the trace of decoder calls made. -/
structure ToolOut where
  result : Except PyErr PyVal
  calls : List DecoderCall

/-- Modelled from the spec: `MFTParser.get_total_entries` of the decoder
package absent from this repository, specified as buffer length divided
by the fixed record size. -/
def get_total_entries (env : Env) (input_path : String) : Nat :=
  env.fs.fileBytes input_path / env.mft.recordSize

/-- Embedding of the tool `parse_mft(input_path, output_path,
output_format, active_only, include_path)` from `mcp_server.py`. -/
def parse_mft (env : Env) (input_path output_path output_format : String)
    (active_only include_path : Bool) : ToolOut :=
  if !env.mft.importOk then
    ⟨.error (.importErr "src.mft_parser"), []⟩
  else if !(env.fs.pathExists input_path) then
    ⟨.ok (failDict ("Input file not found: " ++ input_path)), []⟩
  else if !(fullFormats.contains output_format) then
    ⟨.ok (failDict ("Invalid format: " ++ output_format ++ ". Use csv, json, or sqlite")), []⟩
  else
    match env.mft.newOk input_path with
    | .error e => ⟨.ok (failDict e), [.mftParserNew input_path]⟩
    | .ok _ =>
      let total := get_total_entries env input_path
      match env.mft.run input_path output_path (!active_only) output_format include_path with
      | .error e =>
        ⟨.ok (failDict e),
         [.mftParserNew input_path,
          .parseMftFile input_path output_path (!active_only) output_format include_path]⟩
      | .ok _ =>
        ⟨.ok (.vDict
          [("success", .vBool true),
           ("total_entries", .vNat total),
           ("elapsed_seconds", .vNat env.elapsed),
           ("output_path", .vStr output_path),
           ("format", .vStr output_format)]),
         [.mftParserNew input_path,
          .parseMftFile input_path output_path (!active_only) output_format include_path]⟩

/-- Embedding of the tool `parse_usnjrnl(input_path, output_path,
output_format, mft_path)` from `mcp_server.py`. -/
def parse_usnjrnl (env : Env) (input_path output_path output_format : String)
    (mft_path : Option String) : ToolOut :=
  if !env.usn.importOk then
    ⟨.error (.importErr "src.usnjrnl_parser"), []⟩
  else if !(env.fs.pathExists input_path) then
    ⟨.ok (failDict ("Input file not found: " ++ input_path)), []⟩
  else if pyTruthy mft_path && !(env.fs.pathExists (mft_path.getD "")) then
    ⟨.ok (failDict ("MFT file not found: " ++ mft_path.getD "")), []⟩
  else if !(fullFormats.contains output_format) then
    ⟨.ok (failDict ("Invalid format: " ++ output_format ++ ". Use csv, json, or sqlite")), []⟩
  else
    match env.usn.run input_path output_path mft_path output_format (pyTruthy mft_path) with
    | .error e =>
      ⟨.ok (failDict e),
       [.parseUsnjrnlFile input_path output_path mft_path output_format (pyTruthy mft_path)]⟩
    | .ok _ =>
      ⟨.ok (.vDict
        [("success", .vBool true),
         ("file_size_mb", .vNat (env.fs.fileBytes input_path / (1024 * 1024))),
         ("elapsed_seconds", .vNat env.elapsed),
         ("output_path", .vStr output_path),
         ("format", .vStr output_format),
         ("path_resolution", .vBool (pyTruthy mft_path))]),
       [.parseUsnjrnlFile input_path output_path mft_path output_format (pyTruthy mft_path)]⟩

/-- Embedding of the tool `parse_logfile(input_path, output_path,
output_format)` from `mcp_server.py`. -/
def parse_logfile (env : Env) (input_path output_path output_format : String) : ToolOut :=
  if !env.log.importOk then
    ⟨.error (.importErr "src.logfile_parser"), []⟩
  else if !(env.fs.pathExists input_path) then
    ⟨.ok (failDict ("Input file not found: " ++ input_path)), []⟩
  else if !(logFormats.contains output_format) then
    ⟨.ok (failDict ("Invalid format: " ++ output_format ++ ". LogFile supports csv or json only")), []⟩
  else
    match env.log.run input_path output_path output_format with
    | .error e =>
      ⟨.ok (failDict e), [.parseLogfileFile input_path output_path output_format]⟩
    | .ok _ =>
      ⟨.ok (.vDict
        [("success", .vBool true),
         ("elapsed_seconds", .vNat env.elapsed),
         ("output_path", .vStr output_path),
         ("format", .vStr output_format)]),
       [.parseLogfileFile input_path output_path output_format]⟩

/-- One partition entry of `extract_from_image`: extraction of the three
artifacts in source order (MFT, LogFile, UsnJrnl); an artifact whose
extraction call returns false is simply omitted from `extracted`. -/
def extractPartition (env : Env) (output_dir : String) (i : Nat) (part : Partition) : PyVal :=
  let mftPath := output_dir ++ "/partition" ++ toString i ++ "_MFT"
  let logPath := output_dir ++ "/partition" ++ toString i ++ "_LogFile"
  let usnPath := output_dir ++ "/partition" ++ toString i ++ "_UsnJrnl_J"
  .vDict
    [("partition", .vNat i),
     ("offset", .vNat part.offset),
     ("cluster_size", .vNat part.cluster_size),
     ("extracted", .vDict
       ((if env.img.extractMft i then [("mft", PyVal.vStr mftPath)] else [])
        ++ (if env.img.extractLogfile i then [("logfile", PyVal.vStr logPath)] else [])
        ++ (if env.img.extractUsnjrnl i then [("usnjrnl", PyVal.vStr usnPath)] else [])))]

/-- Embedding of the tool `extract_from_image(image_path, output_dir,
partition, verbose)` from `mcp_server.py`.  The verbose flag is forwarded
to the UsnJrnl extraction call but does not change its outcome oracle. -/
def extract_from_image (env : Env) (image_path output_dir : String)
    (partition : Option Int) (_verbose : Bool) : ToolOut :=
  if !env.img.importOk then
    ⟨.error (.importErr "src.image_handler"), []⟩
  else if !(env.fs.pathExists image_path) then
    ⟨.ok (failDict ("Image file not found: " ++ image_path)), []⟩
  else
    match env.img.findPartitions image_path with
    | .error (.importErr e) =>
      ⟨.ok (failDict ("Missing dependency: " ++ e
        ++ ". For E01 support, install: pip install pyewf-python")), []⟩
    | .error (.exc e) => ⟨.ok (failDict e), []⟩
    | .ok parts =>
      let toProcess : Option (List (Nat × Partition)) :=
        match partition with
        | some p =>
          if p < 0 ∨ (parts.length : Int) ≤ p then none
          else some [(p.toNat, parts.getD p.toNat ⟨0, 0⟩)]
        | none => some parts.enum
      match toProcess with
      | none =>
        ⟨.ok (failDict ("Invalid partition: valid: 0-" ++ toString (parts.length - 1))), []⟩
      | some pairs =>
        ⟨.ok (.vDict
          [("success", .vBool true),
           ("partitions", .vList (pairs.map (fun ip => extractPartition env output_dir ip.1 ip.2))),
           ("total_partitions", .vNat parts.length)]), []⟩

/-- The MFT block of one `extract_and_analyze` partition iteration:
skipped, extraction failed (no entry), decoder exception (error entry) or
decoded output (path entry); the decoder is always called with
`include_deleted = True` and `include_path = True`. -/
def mftSlot (env : Env) (output_dir temp_dir ext output_format : String)
    (skip_mft : Bool) (i : Nat) : List (String × PyVal) × List DecoderCall :=
  if skip_mft then ⟨[], []⟩
  else
    let mftTemp := temp_dir ++ "/partition" ++ toString i ++ "_MFT"
    let mftOutput := output_dir ++ "/partition" ++ toString i ++ "_MFT" ++ ext
    if env.img.extractMft i then
      match env.mft.run mftTemp mftOutput true output_format true with
      | .ok _ =>
        ⟨[("mft", .vStr mftOutput)], [.parseMftFile mftTemp mftOutput true output_format true]⟩
      | .error e =>
        ⟨[("mft_error", .vStr e)], [.parseMftFile mftTemp mftOutput true output_format true]⟩
    else ⟨[], []⟩

/-- The UsnJrnl block of one `extract_and_analyze` partition iteration;
path resolution is enabled exactly when the MFT step was not skipped and
its temporary file exists. -/
def usnSlot (env : Env) (output_dir temp_dir ext output_format : String)
    (skip_mft skip_usnjrnl : Bool) (i : Nat) : List (String × PyVal) × List DecoderCall :=
  if skip_usnjrnl then ⟨[], []⟩
  else
    let mftTemp := temp_dir ++ "/partition" ++ toString i ++ "_MFT"
    let usnTemp := temp_dir ++ "/partition" ++ toString i ++ "_UsnJrnl_J"
    let usnOutput := output_dir ++ "/partition" ++ toString i ++ "_UsnJrnl" ++ ext
    if env.img.extractUsnjrnl i then
      let mftForPath : Option String :=
        if !skip_mft && env.img.tempMftExists i then some mftTemp else none
      match env.usn.run usnTemp usnOutput mftForPath output_format (pyTruthy mftForPath) with
      | .ok _ =>
        ⟨[("usnjrnl", .vStr usnOutput)],
         [.parseUsnjrnlFile usnTemp usnOutput mftForPath output_format (pyTruthy mftForPath)]⟩
      | .error e =>
        ⟨[("usnjrnl_error", .vStr e)],
         [.parseUsnjrnlFile usnTemp usnOutput mftForPath output_format (pyTruthy mftForPath)]⟩
    else ⟨[], []⟩

/-- The LogFile block of one `extract_and_analyze` partition iteration:
under the sqlite output format the LogFile alone is downgraded to csv
format and a `.csv` extension. -/
def logSlot (env : Env) (output_dir temp_dir ext output_format : String)
    (skip_logfile : Bool) (i : Nat) : List (String × PyVal) × List DecoderCall :=
  if skip_logfile then ⟨[], []⟩
  else
    let logTemp := temp_dir ++ "/partition" ++ toString i ++ "_LogFile"
    let logfileFormat := if output_format == "sqlite" then "csv" else output_format
    let logfileExt := if output_format == "sqlite" then ".csv" else ext
    let logOutput := output_dir ++ "/partition" ++ toString i ++ "_LogFile" ++ logfileExt
    if env.img.extractLogfile i then
      match env.log.run logTemp logOutput logfileFormat with
      | .ok _ =>
        ⟨[("logfile", .vStr logOutput)], [.parseLogfileFile logTemp logOutput logfileFormat]⟩
      | .error e =>
        ⟨[("logfile_error", .vStr e)], [.parseLogfileFile logTemp logOutput logfileFormat]⟩
    else ⟨[], []⟩

/-- One partition entry of `extract_and_analyze`, assembling the three
artifact blocks in source order; a failed extraction leaves the artifact
absent from `analyzed`, a decoder exception is stored under its error
key, and the remaining artifacts are still processed. -/
def analyzePartition (env : Env) (output_dir temp_dir ext output_format : String)
    (skip_mft skip_usnjrnl skip_logfile : Bool) (i : Nat) : PyVal × List DecoderCall :=
  let m := mftSlot env output_dir temp_dir ext output_format skip_mft i
  let u := usnSlot env output_dir temp_dir ext output_format skip_mft skip_usnjrnl i
  let l := logSlot env output_dir temp_dir ext output_format skip_logfile i
  ⟨.vDict
    [("partition", .vNat i),
     ("analyzed", .vDict (m.1 ++ u.1 ++ l.1))],
   m.2 ++ u.2 ++ l.2⟩

/-- Embedding of the tool `extract_and_analyze(image_path, output_dir,
output_format, partition, skip_mft, skip_usnjrnl, skip_logfile,
keep_temp)` from `mcp_server.py`. -/
def extract_and_analyze (env : Env) (image_path output_dir output_format : String)
    (partition : Option Int) (skip_mft skip_usnjrnl skip_logfile keep_temp : Bool) : ToolOut :=
  if !env.img.importOk || !env.mft.importOk || !env.usn.importOk || !env.log.importOk then
    ⟨.error (.importErr "src.image_handler"), []⟩
  else if !(env.fs.pathExists image_path) then
    ⟨.ok (failDict ("Image file not found: " ++ image_path)), []⟩
  else if !(fullFormats.contains output_format) then
    ⟨.ok (failDict ("Invalid format: " ++ output_format)), []⟩
  else
    let tempDir := output_dir ++ "/temp_extracted"
    match env.img.findPartitions image_path with
    | .error (.importErr e) => ⟨.ok (failDict ("Missing dependency: " ++ e)), []⟩
    | .error (.exc e) => ⟨.ok (failDict e), []⟩
    | .ok parts =>
      let toProcess : Option (List (Nat × Partition)) :=
        match partition with
        | some p =>
          if p < 0 ∨ (parts.length : Int) ≤ p then none
          else some [(p.toNat, parts.getD p.toNat ⟨0, 0⟩)]
        | none => some parts.enum
      match toProcess with
      | none => ⟨.ok (failDict "Invalid partition"), []⟩
      | some pairs =>
        let ext := if output_format == "sqlite" then ".db" else "." ++ output_format
        let processed := pairs.map (fun ip =>
          analyzePartition env output_dir tempDir ext output_format
            skip_mft skip_usnjrnl skip_logfile ip.1)
        ⟨.ok (.vDict
          ([("success", .vBool true),
            ("partitions", .vList (processed.map Prod.fst))]
           ++ (if keep_temp then [] else [("temp_cleaned", .vBool env.rmtreeOk)])
           ++ [("elapsed_seconds", .vNat env.elapsed),
               ("output_dir", .vStr output_dir)])),
         (processed.map Prod.snd).flatten⟩

/-- Embedding of the tool `analyze_artifacts(output_dir, output_format,
mft_path, usnjrnl_path, logfile_path)` from `mcp_server.py`. -/
def analyze_artifacts (env : Env) (output_dir output_format : String)
    (mft_path usnjrnl_path logfile_path : Option String) : ToolOut :=
  if !env.ana.importOk then
    ⟨.error (.importErr "src.analyzer"), []⟩
  else if !(pyTruthy mft_path || pyTruthy usnjrnl_path || pyTruthy logfile_path) then
    ⟨.ok (failDict "At least one input file required (mft_path, usnjrnl_path, or logfile_path)"), []⟩
  else if pyTruthy mft_path && !(env.fs.pathExists (mft_path.getD "")) then
    ⟨.ok (failDict ("MFT file not found: " ++ mft_path.getD "")), []⟩
  else if pyTruthy usnjrnl_path && !(env.fs.pathExists (usnjrnl_path.getD "")) then
    ⟨.ok (failDict ("UsnJrnl file not found: " ++ usnjrnl_path.getD "")), []⟩
  else if pyTruthy logfile_path && !(env.fs.pathExists (logfile_path.getD "")) then
    ⟨.ok (failDict ("LogFile file not found: " ++ logfile_path.getD "")), []⟩
  else if !(fullFormats.contains output_format) then
    ⟨.ok (failDict ("Invalid format: " ++ output_format)), []⟩
  else
    match env.ana.analyzeAll output_dir mft_path logfile_path usnjrnl_path output_format with
    | .error e =>
      ⟨.ok (failDict e), [.analyzeAll output_dir mft_path logfile_path usnjrnl_path output_format]⟩
    | .ok resultPath =>
      ⟨.ok (.vDict
        [("success", .vBool true),
         ("elapsed_seconds", .vNat env.elapsed),
         ("output_path", .vStr resultPath),
         ("format", .vStr output_format),
         ("inputs", .vDict
           [("mft", optVal mft_path),
            ("usnjrnl", optVal usnjrnl_path),
            ("logfile", optVal logfile_path)])]),
       [.analyzeAll output_dir mft_path logfile_path usnjrnl_path output_format]⟩

/-- Modelled from the spec: one fixed-size slot of a raw MFT buffer, as
seen by the MFT decoder absent from this repository — magic-signature
validity, update-sequence fixup validity, the in-use flag and abstract
attribute content. -/
structure RawSlot where
  magicOk : Bool
  fixupOk : Bool
  inUse : Bool
  payload : Nat
deriving Repr, DecidableEq

/-- Modelled from the spec: the flag a decoded MFT slot carries —
decoded cleanly, fixup-corrupted, or unallocated/corrupt on a bad magic
signature. -/
inductive SlotFlag where
  | ok : SlotFlag
  | corrupted : SlotFlag
  | unallocCorrupt : SlotFlag
deriving Repr, DecidableEq

/-- Modelled from the spec: a decoded MFT record, always produced, with
its corruption flag and the raw in-use flag preserved. -/
structure MFTRecordM where
  flag : SlotFlag
  inUse : Bool
  payload : Nat
deriving Repr, DecidableEq

/-- Modelled from the spec: decoding of one MFT slot never aborts — a bad
magic marks the slot unallocated/corrupt, a fixup mismatch marks it
corrupted, and decoding continues best-effort either way. -/
def decodeSlot (s : RawSlot) : MFTRecordM :=
  if !s.magicOk then ⟨.unallocCorrupt, s.inUse, s.payload⟩
  else if !s.fixupOk then ⟨.corrupted, s.inUse, s.payload⟩
  else ⟨.ok, s.inUse, s.payload⟩

/-- Modelled from the spec: the single-pass MFT decode over a buffer of
fixed-size slots, one record per slot. -/
def decodeMFT (slots : List RawSlot) : List MFTRecordM :=
  slots.map decodeSlot

/-- Modelled from the spec: `include_deleted` is a visibility filter
applied after the full decode — every slot is decoded, and the flag only
selects which decoded records are surfaced to the caller. -/
def surfacedRecords (slots : List RawSlot) (include_deleted : Bool) : List MFTRecordM :=
  (decodeMFT slots).filter (fun r => include_deleted || r.inUse)

/-- Modelled from the spec: a raw USN journal record before the optional
path join — file reference, parent reference and filename. -/
structure RawUsn where
  fileRef : Nat × Nat
  parentRef : Nat × Nat
  name : String
deriving Repr, DecidableEq

/-- Modelled from the spec: a USN record after the optional path join;
the path is the resolved parent directory components when the MFT index
matched, and unset otherwise. -/
structure USNRecordM where
  fileRef : Nat × Nat
  name : String
  path : Option (List String)
deriving Repr, DecidableEq

/-- Modelled from the spec: the optional path join of the USN decoder —
each record's parent reference is looked up in the supplied MFT index,
and absence of a match yields a name-only record with no path, never an
error. -/
def joinUsnRecord (index : Nat × Nat → Option (List String))
    (r : RawUsn) : USNRecordM :=
  match index r.parentRef with
  | none => ⟨r.fileRef, r.name, none⟩
  | some dirs => ⟨r.fileRef, r.name, some (dirs ++ [r.name])⟩

/-- Nested dictionary access, used for per-partition artifact slots. -/
def getKey2 (v : PyVal) (k1 k2 : String) : Option PyVal :=
  (getKey v k1).bind (fun w => getKey w k2)

/-- A tool outcome that is a returned dictionary carrying a boolean
`success` key — the shape claimed for every tool result. -/
def returnsSuccessKeyed (o : ToolOut) : Prop :=
  ∃ d b, o.result = .ok d ∧ getKey d "success" = some (.vBool b)

/-- A benign concrete environment: every path except "missing" exists,
all decoder oracles succeed, one NTFS partition is found and all
extractions succeed. -/
def envW : Env :=
  ⟨⟨fun s => !(s == "missing"), fun _ => 2048⟩,
   ⟨true, 1024, fun _ => .ok (), fun _ _ _ _ _ => .ok ()⟩,
   ⟨true, fun _ _ _ _ _ => .ok ()⟩,
   ⟨true, fun _ _ _ => .ok ()⟩,
   ⟨true, fun _ => .ok [⟨4096, 4096⟩], fun _ => true, fun _ => true, fun _ => true, fun _ => true⟩,
   ⟨true, fun _ _ _ _ _ => .ok "timeline.csv"⟩,
   1, true⟩

/-- A concrete environment in which no path exists at all. -/
def envNoFiles : Env :=
  ⟨⟨fun _ => false, fun _ => 0⟩,
   ⟨true, 1024, fun _ => .ok (), fun _ _ _ _ _ => .ok ()⟩,
   ⟨true, fun _ _ _ _ _ => .ok ()⟩,
   ⟨true, fun _ _ _ => .ok ()⟩,
   ⟨true, fun _ => .ok [], fun _ => true, fun _ => true, fun _ => true, fun _ => true⟩,
   ⟨true, fun _ _ _ _ _ => .ok "timeline.csv"⟩,
   1, true⟩

/-- A concrete environment whose MFT decoder module fails to import. -/
def envNoMftModule : Env :=
  ⟨⟨fun _ => true, fun _ => 0⟩,
   ⟨false, 1024, fun _ => .ok (), fun _ _ _ _ _ => .ok ()⟩,
   ⟨true, fun _ _ _ _ _ => .ok ()⟩,
   ⟨true, fun _ _ _ => .ok ()⟩,
   ⟨true, fun _ => .ok [], fun _ => true, fun _ => true, fun _ => true, fun _ => true⟩,
   ⟨true, fun _ _ _ _ _ => .ok "timeline.csv"⟩,
   1, true⟩

/-- A concrete environment in which opening the image raises an
`ImportError` for the missing forensic-container codec. -/
def envNoCodec : Env :=
  ⟨⟨fun _ => true, fun _ => 0⟩,
   ⟨true, 1024, fun _ => .ok (), fun _ _ _ _ _ => .ok ()⟩,
   ⟨true, fun _ _ _ _ _ => .ok ()⟩,
   ⟨true, fun _ _ _ => .ok ()⟩,
   ⟨true, fun _ => .error (.importErr "No module named pyewf"),
    fun _ => true, fun _ => true, fun _ => true, fun _ => true⟩,
   ⟨true, fun _ _ _ _ _ => .ok "timeline.csv"⟩,
   1, true⟩

/-- C5: `parse_mft` and `parse_usnjrnl` accept exactly the formats csv,
json and sqlite, and `parse_logfile` exactly csv and json; any string
outside the respective set is rejected with a failure result and no
decoder call, while any string inside it passes the format guard, so
that (once the file-existence checks pass) the decoder is reached. -/
theorem output_format_validation (env : Env) (i o fmt : String)
    (m : Option String) (ao ip : Bool)
    (hm : env.mft.importOk = true) (hu : env.usn.importOk = true)
    (hl : env.log.importOk = true) (hi : env.fs.pathExists i = true) :
    (fullFormats.contains fmt = false →
      (parse_mft env i o fmt ao ip).result =
        .ok (failDict ("Invalid format: " ++ fmt ++ ". Use csv, json, or sqlite")) ∧
      (parse_mft env i o fmt ao ip).calls = [] ∧
      (pyTruthy m = false →
        (parse_usnjrnl env i o fmt m).result =
          .ok (failDict ("Invalid format: " ++ fmt ++ ". Use csv, json, or sqlite")) ∧
        (parse_usnjrnl env i o fmt m).calls = [])) ∧
    (logFormats.contains fmt = false →
      (parse_logfile env i o fmt).result =
        .ok (failDict ("Invalid format: " ++ fmt ++ ". LogFile supports csv or json only")) ∧
      (parse_logfile env i o fmt).calls = []) ∧
    (fullFormats.contains fmt = true →
      (parse_mft env i o fmt ao ip).calls ≠ [] ∧
      (pyTruthy m = false →
        (parse_usnjrnl env i o fmt m).calls =
          [.parseUsnjrnlFile i o m fmt false])) ∧
    (logFormats.contains fmt = true →
      (parse_logfile env i o fmt).calls = [.parseLogfileFile i o fmt]) := by
  refine ⟨?_, ?_, ?_, ?_⟩
  · intro hc
    replace hc : fmt ∉ fullFormats := by simpa using hc
    refine ⟨?_, ?_, ?_⟩
    · simp [parse_mft, hm, hi, hc]
    · simp [parse_mft, hm, hi, hc]
    · intro hmp
      constructor
      · simp [parse_usnjrnl, hu, hi, hc, hmp]
      · simp [parse_usnjrnl, hu, hi, hc, hmp]
  · intro hc
    replace hc : fmt ∉ logFormats := by simpa using hc
    constructor
    · simp [parse_logfile, hl, hi, hc]
    · simp [parse_logfile, hl, hi, hc]
  · intro hc
    replace hc : fmt ∈ fullFormats := by simpa using hc
    constructor
    · cases hn : env.mft.newOk i with
      | error e => simp [parse_mft, hm, hi, hc, hn]
      | ok u =>
        cases hr : env.mft.run i o (!ao) fmt ip with
        | error e => simp [parse_mft, hm, hi, hc, hn, hr]
        | ok u => simp [parse_mft, hm, hi, hc, hn, hr]
    · intro hmp
      cases hr : env.usn.run i o m fmt (pyTruthy m) with
      | error e =>
        rw [hmp] at hr
        simp [parse_usnjrnl, hu, hi, hc, hmp, hr]
      | ok u =>
        rw [hmp] at hr
        simp [parse_usnjrnl, hu, hi, hc, hmp, hr]
  · intro hc
    replace hc : fmt ∈ logFormats := by simpa using hc
    cases hr : env.log.run i o fmt with
    | error e => simp [parse_logfile, hl, hi, hc, hr]
    | ok u => simp [parse_logfile, hl, hi, hc, hr]

/-- C5 witness: at the concrete rejected format "xml" and the accepted
format "csv" in a benign environment. -/
theorem output_format_validation_witness :
    (parse_mft envW "f" "out" "xml" false true).result =
      .ok (failDict "Invalid format: xml. Use csv, json, or sqlite") ∧
    (parse_logfile envW "f" "out" "csv").calls = [.parseLogfileFile "f" "out" "csv"] := by
  have h := output_format_validation envW "f" "out" "xml" none false true rfl rfl rfl rfl
  have h2 := output_format_validation envW "f" "out" "csv" none false true rfl rfl rfl rfl
  exact ⟨(h.1 (by decide)).1, h2.2.2.2 (by decide)⟩

/-- C10: for each of `parse_mft`, `parse_usnjrnl` and `parse_logfile`,
every validation failure — missing input file, missing supplied MFT file,
or unrecognized output format — produces an error result with an empty
decoder-call trace: no parse is started, and since the server writes
output files only through decoder calls, the file at the output path is
neither created nor modified. -/
theorem validation_precedes_decoding (env : Env) (i o fmt : String)
    (m : Option String) (ao ip : Bool)
    (hm : env.mft.importOk = true) (hu : env.usn.importOk = true)
    (hl : env.log.importOk = true) :
    (env.fs.pathExists i = false →
      (parse_mft env i o fmt ao ip).result = .ok (failDict ("Input file not found: " ++ i)) ∧
      (parse_mft env i o fmt ao ip).calls = [] ∧
      (parse_usnjrnl env i o fmt m).result = .ok (failDict ("Input file not found: " ++ i)) ∧
      (parse_usnjrnl env i o fmt m).calls = [] ∧
      (parse_logfile env i o fmt).result = .ok (failDict ("Input file not found: " ++ i)) ∧
      (parse_logfile env i o fmt).calls = []) ∧
    (fullFormats.contains fmt = false →
      (∃ msg, (parse_mft env i o fmt ao ip).result = .ok (failDict msg)) ∧
      (parse_mft env i o fmt ao ip).calls = [] ∧
      (∃ msg, (parse_usnjrnl env i o fmt m).result = .ok (failDict msg)) ∧
      (parse_usnjrnl env i o fmt m).calls = []) ∧
    (logFormats.contains fmt = false →
      (∃ msg, (parse_logfile env i o fmt).result = .ok (failDict msg)) ∧
      (parse_logfile env i o fmt).calls = []) ∧
    (env.fs.pathExists i = true → pyTruthy m = true →
      env.fs.pathExists (m.getD "") = false →
      (parse_usnjrnl env i o fmt m).result = .ok (failDict ("MFT file not found: " ++ m.getD "")) ∧
      (parse_usnjrnl env i o fmt m).calls = []) := by
  refine ⟨?_, ?_, ?_, ?_⟩
  · intro hpi
    refine ⟨?_, ?_, ?_, ?_, ?_, ?_⟩ <;>
      simp [parse_mft, parse_usnjrnl, parse_logfile, hm, hu, hl, hpi]
  · intro hc
    replace hc : fmt ∉ fullFormats := by simpa using hc
    cases hpi : env.fs.pathExists i with
    | false =>
      refine ⟨⟨"Input file not found: " ++ i, ?_⟩, ?_,
              ⟨"Input file not found: " ++ i, ?_⟩, ?_⟩ <;>
        simp [parse_mft, parse_usnjrnl, hm, hu, hpi]
    | true =>
      refine ⟨⟨"Invalid format: " ++ fmt ++ ". Use csv, json, or sqlite", ?_⟩, ?_, ?_, ?_⟩
      · simp [parse_mft, hm, hpi, hc]
      · simp [parse_mft, hm, hpi, hc]
      · cases hmc : (pyTruthy m && !(env.fs.pathExists (m.getD ""))) with
        | true =>
          exact ⟨"MFT file not found: " ++ m.getD "", by simp [parse_usnjrnl, hu, hpi, hmc]⟩
        | false =>
          exact ⟨"Invalid format: " ++ fmt ++ ". Use csv, json, or sqlite",
            by simp [parse_usnjrnl, hu, hpi, hmc, hc]⟩
      · cases hmc : (pyTruthy m && !(env.fs.pathExists (m.getD ""))) with
        | true => simp [parse_usnjrnl, hu, hpi, hmc]
        | false => simp [parse_usnjrnl, hu, hpi, hmc, hc]
  · intro hc
    replace hc : fmt ∉ logFormats := by simpa using hc
    cases hpi : env.fs.pathExists i with
    | false =>
      exact ⟨⟨"Input file not found: " ++ i, by simp [parse_logfile, hl, hpi]⟩,
        by simp [parse_logfile, hl, hpi]⟩
    | true =>
      exact ⟨⟨"Invalid format: " ++ fmt ++ ". LogFile supports csv or json only",
        by simp [parse_logfile, hl, hpi, hc]⟩, by simp [parse_logfile, hl, hpi, hc]⟩
  · intro hpi hmp hme
    constructor <;> simp [parse_usnjrnl, hu, hpi, hmp, hme]

/-- C10 witness: at a concrete missing input file and a concrete bad
format in a benign environment. -/
theorem validation_precedes_decoding_witness :
    (parse_mft envW "missing" "out" "csv" false true).calls = [] ∧
    (parse_logfile envW "log" "out" "sqlite").calls = [] := by
  have h1 := validation_precedes_decoding envW "missing" "out" "csv" none false true rfl rfl rfl
  have h2 := validation_precedes_decoding envW "log" "out" "sqlite" none false true rfl rfl rfl
  exact ⟨(h1.1 rfl).2.1, (h2.2.2.1 (by decide)).2⟩

/-- C1 counterexample: `analyze_artifacts` can return a failure result
even though not all of the three optional inputs are absent — here
`mft_path` is supplied (`some "m"`) but the file does not exist, so the
call fails although at least one input was given, refuting the claimed
biconditional that a failure result occurs exactly when `mft_path`,
`usnjrnl_path` and `logfile_path` are all `None`. -/
theorem analyze_artifacts_fails_with_input_present :
    (some "m" : Option String) ≠ none ∧
    (analyze_artifacts envNoFiles "out" "csv" (some "m") none none).result =
      .ok (failDict "MFT file not found: m") := by
  constructor
  · intro h
    cases h
  · rfl

/-- C1 (amended): `analyze_artifacts` fails with the at-least-one-input
error precisely when all three optional inputs are absent (None or empty,
Python-falsy), and a missing optional input alone never causes failure:
whenever at least one input is supplied, every supplied input names an
existing file, the output format is recognized and the analyzer raises no
exception, the call succeeds — though it can still fail for those other
reasons (a supplied path that does not exist, a bad format, an analyzer
exception), which is what the original biconditional missed. -/
theorem analyze_artifacts_failure_policy (env : Env) (od fmt : String)
    (mp up lp : Option String) (ha : env.ana.importOk = true) :
    (pyTruthy mp = false → pyTruthy up = false → pyTruthy lp = false →
      (analyze_artifacts env od fmt mp up lp).result =
        .ok (failDict "At least one input file required (mft_path, usnjrnl_path, or logfile_path)") ∧
      (analyze_artifacts env od fmt mp up lp).calls = []) ∧
    ((pyTruthy mp || pyTruthy up || pyTruthy lp) = true →
      (pyTruthy mp = true → env.fs.pathExists (mp.getD "") = true) →
      (pyTruthy up = true → env.fs.pathExists (up.getD "") = true) →
      (pyTruthy lp = true → env.fs.pathExists (lp.getD "") = true) →
      fullFormats.contains fmt = true →
      ∀ rp, env.ana.analyzeAll od mp lp up fmt = .ok rp →
      ∃ d, (analyze_artifacts env od fmt mp up lp).result = .ok d ∧
        getKey d "success" = some (.vBool true) ∧
        getKey d "output_path" = some (.vStr rp)) := by
  constructor
  · intro h1 h2 h3
    constructor <;> simp [analyze_artifacts, ha, h1, h2, h3]
  · intro hany hmp hup hlp hfmt rp hrun
    replace hfmt : fmt ∈ fullFormats := by simpa using hfmt
    have hmp' : (pyTruthy mp && !(env.fs.pathExists (mp.getD ""))) = false := by
      cases h : pyTruthy mp with
      | false => simp
      | true => simp [hmp h]
    have hup' : (pyTruthy up && !(env.fs.pathExists (up.getD ""))) = false := by
      cases h : pyTruthy up with
      | false => simp
      | true => simp [hup h]
    have hlp' : (pyTruthy lp && !(env.fs.pathExists (lp.getD ""))) = false := by
      cases h : pyTruthy lp with
      | false => simp
      | true => simp [hlp h]
    refine ⟨.vDict
      [("success", .vBool true),
       ("elapsed_seconds", .vNat env.elapsed),
       ("output_path", .vStr rp),
       ("format", .vStr fmt),
       ("inputs", .vDict
         [("mft", optVal mp), ("usnjrnl", optVal up), ("logfile", optVal lp)])], ?_, ?_, ?_⟩
    · simp [analyze_artifacts, ha, hany, hmp', hup', hlp', hfmt, hrun]
    · simp [getKey, lookupKey]
    · simp [getKey, lookupKey]

/-- C1 witness: with only a UsnJrnl input supplied in a benign
environment, the analysis succeeds rather than failing for the two
missing inputs; with no inputs at all, it fails with the
at-least-one-input error. -/
theorem analyze_artifacts_failure_policy_witness :
    (∃ d, (analyze_artifacts envW "out" "csv" none (some "usn") none).result = .ok d ∧
      getKey d "success" = some (.vBool true) ∧
      getKey d "output_path" = some (.vStr "timeline.csv")) ∧
    (analyze_artifacts envW "out" "csv" none none none).result =
      .ok (failDict "At least one input file required (mft_path, usnjrnl_path, or logfile_path)") := by
  have h := analyze_artifacts_failure_policy envW "out" "csv" none (some "usn") none rfl
  have h2 := analyze_artifacts_failure_policy envW "out" "csv" none none none rfl
  refine ⟨h.2 (by decide) (by intro hx; rfl) (by intro hx; rfl) (by intro hx; rfl)
    (by decide) "timeline.csv" rfl, (h2.1 rfl rfl rfl).1⟩

/-- C4 counterexample: the source gates path resolution on Python
truthiness (`bool(mft_path)` and `if mft_path and ...`), not on
`mft_path is None`.  With the supplied value `mft_path = some ""` — an
argument that is not None and whose path exists (in Python,
`Path("")` denotes the current directory) — the decoder is nevertheless
invoked with `include_path = false` and the success result reports
`path_resolution = false`, refuting the claim that any supplied, existing
`mft_path` yields `include_path = true` and `path_resolution = true`. -/
theorem usnjrnl_empty_mft_path_counterexample :
    (some "" : Option String) ≠ none ∧
    envW.fs.pathExists "" = true ∧
    (parse_usnjrnl envW "j" "out" "csv" (some "")).calls =
      [.parseUsnjrnlFile "j" "out" (some "") "csv" false] ∧
    ∃ d, (parse_usnjrnl envW "j" "out" "csv" (some "")).result = .ok d ∧
      getKey d "success" = some (.vBool true) ∧
      getKey d "path_resolution" = some (.vBool false) :=
  ⟨Option.some_ne_none _, rfl, rfl, _, rfl, rfl, rfl⟩

/-- C4 (amended): in `parse_usnjrnl`, path resolution is governed by the
Python truthiness of `mft_path` — absent meaning None **or the empty
string**: when `mft_path` is falsy the decoder is invoked with
`include_path = false` and a success result reports
`path_resolution = false`; when `mft_path` is a non-empty string naming
an existing file the decoder is invoked with `include_path = true` and a
success result reports `path_resolution = true`; and (modelled from the
spec, the decoder being outside this repository) a journal record whose
parent reference finds no match in the MFT index yields a name-only
record without a path rather than an error. -/
theorem usnjrnl_path_resolution_policy (env : Env) (i o fmt : String)
    (m : Option String)
    (hu : env.usn.importOk = true) (hi : env.fs.pathExists i = true)
    (hfmt : fullFormats.contains fmt = true) :
    (pyTruthy m = false →
      (parse_usnjrnl env i o fmt m).calls = [.parseUsnjrnlFile i o m fmt false] ∧
      (∀ d, (parse_usnjrnl env i o fmt m).result = .ok d →
        getKey d "success" = some (.vBool true) →
        getKey d "path_resolution" = some (.vBool false))) ∧
    (pyTruthy m = true → env.fs.pathExists (m.getD "") = true →
      (parse_usnjrnl env i o fmt m).calls = [.parseUsnjrnlFile i o m fmt true] ∧
      (∀ d, (parse_usnjrnl env i o fmt m).result = .ok d →
        getKey d "success" = some (.vBool true) →
        getKey d "path_resolution" = some (.vBool true))) ∧
    (∀ (idx : Nat × Nat → Option (List String)) (r : RawUsn),
      idx r.parentRef = none → joinUsnRecord idx r = ⟨r.fileRef, r.name, none⟩) := by
  replace hfmt : fmt ∈ fullFormats := by simpa using hfmt
  refine ⟨?_, ?_, ?_⟩
  · intro hmp
    cases hr : env.usn.run i o m fmt false with
    | error e =>
      refine ⟨by simp [parse_usnjrnl, hu, hi, hmp, hfmt, hr], ?_⟩
      intro d hd hs
      have hde : d = failDict e := by
        have h2 := hd
        simp [parse_usnjrnl, hu, hi, hmp, hfmt, hr] at h2
        exact h2.symm
      rw [hde] at hs
      simp [failDict, getKey, lookupKey] at hs
    | ok u =>
      refine ⟨by simp [parse_usnjrnl, hu, hi, hmp, hfmt, hr], ?_⟩
      intro d hd hs
      simp [parse_usnjrnl, hu, hi, hmp, hfmt, hr] at hd
      rw [← hd]
      simp [getKey, lookupKey]
  · intro hmp hme
    cases hr : env.usn.run i o m fmt true with
    | error e =>
      refine ⟨by simp [parse_usnjrnl, hu, hi, hmp, hme, hfmt, hr], ?_⟩
      intro d hd hs
      have hde : d = failDict e := by
        have h2 := hd
        simp [parse_usnjrnl, hu, hi, hmp, hme, hfmt, hr] at h2
        exact h2.symm
      rw [hde] at hs
      simp [failDict, getKey, lookupKey] at hs
    | ok u =>
      refine ⟨by simp [parse_usnjrnl, hu, hi, hmp, hme, hfmt, hr], ?_⟩
      intro d hd hs
      simp [parse_usnjrnl, hu, hi, hmp, hme, hfmt, hr] at hd
      rw [← hd]
      simp [getKey, lookupKey]
  · intro idx r hnone
    simp [joinUsnRecord, hnone]

/-- C4 witness: at a concrete None `mft_path` and a concrete existing
non-empty `mft_path` in a benign environment. -/
theorem usnjrnl_path_resolution_policy_witness :
    (parse_usnjrnl envW "j" "out" "csv" none).calls =
      [.parseUsnjrnlFile "j" "out" none "csv" false] ∧
    (parse_usnjrnl envW "j" "out" "csv" (some "mft")).calls =
      [.parseUsnjrnlFile "j" "out" (some "mft") "csv" true] := by
  have h := usnjrnl_path_resolution_policy envW "j" "out" "csv" none rfl rfl (by decide)
  have h2 := usnjrnl_path_resolution_policy envW "j" "out" "csv" (some "mft") rfl rfl (by decide)
  exact ⟨(h.1 rfl).1, (h2.2.1 rfl rfl).1⟩

/-- C8 counterexample: the per-tool decoder-module import sits before the
try block, so when the module fails to import, `parse_mft` propagates the
`ImportError` to its caller instead of returning a dictionary — refuting
the claim that every tool call returns a dict with a boolean success key
and never propagates an exception. -/
theorem parse_mft_import_failure_raises :
    (parse_mft envNoMftModule "a" "b" "csv" false true).result =
      .error (.importErr "src.mft_parser") ∧
    ¬ returnsSuccessKeyed (parse_mft envNoMftModule "a" "b" "csv" false true) := by
  refine ⟨rfl, ?_⟩
  rintro ⟨d, b, hd, hs⟩
  rw [show (parse_mft envNoMftModule "a" "b" "csv" false true).result =
    .error (.importErr "src.mft_parser") from rfl] at hd
  simp at hd

/-- Helper for C8: `parse_mft` always returns a success-keyed dictionary
once its module import succeeds. -/
theorem parse_mft_keyed (env : Env) (i o fmt : String) (ao ip : Bool)
    (hm : env.mft.importOk = true) : returnsSuccessKeyed (parse_mft env i o fmt ao ip) := by
  unfold returnsSuccessKeyed
  simp only [parse_mft, hm, Bool.not_true, Bool.false_eq_true]
  rw [if_neg (fun h => h)]
  split
  · exact ⟨_, false, rfl, by simp [failDict, getKey, lookupKey]⟩
  · split
    · exact ⟨_, false, rfl, by simp [failDict, getKey, lookupKey]⟩
    · split
      · exact ⟨_, false, rfl, by simp [failDict, getKey, lookupKey]⟩
      · split
        · exact ⟨_, false, rfl, by simp [failDict, getKey, lookupKey]⟩
        · exact ⟨_, true, rfl, by simp [getKey, lookupKey]⟩

/-- Helper for C8: `parse_usnjrnl` always returns a success-keyed
dictionary once its module import succeeds. -/
theorem parse_usnjrnl_keyed (env : Env) (i o fmt : String) (m : Option String)
    (hu : env.usn.importOk = true) : returnsSuccessKeyed (parse_usnjrnl env i o fmt m) := by
  unfold returnsSuccessKeyed
  simp only [parse_usnjrnl, hu, Bool.not_true, Bool.false_eq_true]
  rw [if_neg (fun h => h)]
  split
  · exact ⟨_, false, rfl, by simp [failDict, getKey, lookupKey]⟩
  · split
    · exact ⟨_, false, rfl, by simp [failDict, getKey, lookupKey]⟩
    · split
      · exact ⟨_, false, rfl, by simp [failDict, getKey, lookupKey]⟩
      · split
        · exact ⟨_, false, rfl, by simp [failDict, getKey, lookupKey]⟩
        · exact ⟨_, true, rfl, by simp [getKey, lookupKey]⟩

/-- Helper for C8: `parse_logfile` always returns a success-keyed
dictionary once its module import succeeds. -/
theorem parse_logfile_keyed (env : Env) (i o fmt : String)
    (hl : env.log.importOk = true) : returnsSuccessKeyed (parse_logfile env i o fmt) := by
  unfold returnsSuccessKeyed
  simp only [parse_logfile, hl, Bool.not_true, Bool.false_eq_true]
  rw [if_neg (fun h => h)]
  split
  · exact ⟨_, false, rfl, by simp [failDict, getKey, lookupKey]⟩
  · split
    · exact ⟨_, false, rfl, by simp [failDict, getKey, lookupKey]⟩
    · split
      · exact ⟨_, false, rfl, by simp [failDict, getKey, lookupKey]⟩
      · exact ⟨_, true, rfl, by simp [getKey, lookupKey]⟩

/-- Helper for C8: `extract_from_image` always returns a success-keyed
dictionary once its module import succeeds; in particular an
`ImportError` raised while handling the image is caught. -/
theorem extract_from_image_keyed (env : Env) (i od : String) (p : Option Int) (vb : Bool)
    (hg : env.img.importOk = true) : returnsSuccessKeyed (extract_from_image env i od p vb) := by
  unfold returnsSuccessKeyed
  simp only [extract_from_image, hg, Bool.not_true, Bool.false_eq_true]
  rw [if_neg (fun h => h)]
  split
  · exact ⟨_, false, rfl, by simp [failDict, getKey, lookupKey]⟩
  · split
    · exact ⟨_, false, rfl, by simp [failDict, getKey, lookupKey]⟩
    · exact ⟨_, false, rfl, by simp [failDict, getKey, lookupKey]⟩
    · split
      · exact ⟨_, false, rfl, by simp [failDict, getKey, lookupKey]⟩
      · exact ⟨_, true, rfl, by simp [getKey, lookupKey]⟩

/-- Helper for C8: `extract_and_analyze` always returns a success-keyed
dictionary once the four decoder-module imports succeed. -/
theorem extract_and_analyze_keyed (env : Env) (i od fmt : String) (p : Option Int)
    (sm su sl kt : Bool)
    (hg : env.img.importOk = true) (hm : env.mft.importOk = true)
    (hu : env.usn.importOk = true) (hl : env.log.importOk = true) :
    returnsSuccessKeyed (extract_and_analyze env i od fmt p sm su sl kt) := by
  unfold returnsSuccessKeyed
  simp only [extract_and_analyze, hg, hm, hu, hl, Bool.not_true, Bool.or_self,
    Bool.false_or, Bool.or_false, Bool.false_eq_true]
  rw [if_neg (fun h => h)]
  split
  · exact ⟨_, false, rfl, by simp [failDict, getKey, lookupKey]⟩
  · split
    · exact ⟨_, false, rfl, by simp [failDict, getKey, lookupKey]⟩
    · split
      · exact ⟨_, false, rfl, by simp [failDict, getKey, lookupKey]⟩
      · exact ⟨_, false, rfl, by simp [failDict, getKey, lookupKey]⟩
      · split
        · exact ⟨_, false, rfl, by simp [failDict, getKey, lookupKey]⟩
        · exact ⟨_, true, rfl, by simp [getKey, lookupKey]⟩

/-- Helper for C8: `analyze_artifacts` always returns a success-keyed
dictionary once its module import succeeds. -/
theorem analyze_artifacts_keyed (env : Env) (od fmt : String) (mp up lp : Option String)
    (ha : env.ana.importOk = true) :
    returnsSuccessKeyed (analyze_artifacts env od fmt mp up lp) := by
  unfold returnsSuccessKeyed
  simp only [analyze_artifacts, ha, Bool.not_true, Bool.false_eq_true]
  rw [if_neg (fun h => h)]
  split
  · exact ⟨_, false, rfl, by simp [failDict, getKey, lookupKey]⟩
  · split
    · exact ⟨_, false, rfl, by simp [failDict, getKey, lookupKey]⟩
    · split
      · exact ⟨_, false, rfl, by simp [failDict, getKey, lookupKey]⟩
      · split
        · exact ⟨_, false, rfl, by simp [failDict, getKey, lookupKey]⟩
        · split
          · exact ⟨_, false, rfl, by simp [failDict, getKey, lookupKey]⟩
          · split
            · exact ⟨_, false, rfl, by simp [failDict, getKey, lookupKey]⟩
            · exact ⟨_, true, rfl, by simp [getKey, lookupKey]⟩

/-- C8 (amended): provided the decoder-module imports at the top of each
tool body succeed, every tool operation returns a dictionary carrying a
boolean `success` key and never propagates an exception to its caller —
every exception raised in the processing phase is caught and converted
into a failure dictionary.  When an import fails, however, the
`ImportError` does propagate (see the counterexample), which is the one
correction to the original claim. -/
theorem tools_return_success_dict (env : Env) (i o od fmt : String)
    (m mp up lp : Option String) (ao ip vb sm su sl kt : Bool) (p : Option Int)
    (hm : env.mft.importOk = true) (hu : env.usn.importOk = true)
    (hl : env.log.importOk = true) (hg : env.img.importOk = true)
    (ha : env.ana.importOk = true) :
    returnsSuccessKeyed (parse_mft env i o fmt ao ip) ∧
    returnsSuccessKeyed (parse_usnjrnl env i o fmt m) ∧
    returnsSuccessKeyed (parse_logfile env i o fmt) ∧
    returnsSuccessKeyed (extract_from_image env i od p vb) ∧
    returnsSuccessKeyed (extract_and_analyze env i od fmt p sm su sl kt) ∧
    returnsSuccessKeyed (analyze_artifacts env od fmt mp up lp) :=
  ⟨parse_mft_keyed env i o fmt ao ip hm,
   parse_usnjrnl_keyed env i o fmt m hu,
   parse_logfile_keyed env i o fmt hl,
   extract_from_image_keyed env i od p vb hg,
   extract_and_analyze_keyed env i od fmt p sm su sl kt hg hm hu hl,
   analyze_artifacts_keyed env od fmt mp up lp ha⟩

/-- C8 witness: the six tools at concrete arguments in a benign
environment all return success-keyed dictionaries. -/
theorem tools_return_success_dict_witness :
    returnsSuccessKeyed (parse_mft envW "in" "out" "csv" false true) ∧
    returnsSuccessKeyed (analyze_artifacts envW "odir" "csv" (some "mft") none none) := by
  have h := tools_return_success_dict envW "in" "out" "odir" "csv"
    none (some "mft") none none false true false false false false false none
    rfl rfl rfl rfl rfl
  exact ⟨h.1, h.2.2.2.2.2⟩

/-- Lookup misses a block none of whose keys is the requested one. -/
theorem lookupKey_eq_none_of (l : List (String × PyVal)) (k : String)
    (h : ∀ p ∈ l, p.1 ≠ k) : lookupKey l k = none := by
  induction l with
  | nil => rfl
  | cons a t ih =>
    obtain ⟨a1, a2⟩ := a
    have ha : a1 ≠ k := h (a1, a2) (by simp)
    simp only [lookupKey, if_neg ha]
    exact ih (fun p hp => h p (by simp [hp]))

/-- Lookup passes over a block that does not contain the key. -/
theorem lookupKey_append_none (l1 l2 : List (String × PyVal)) (k : String)
    (h : lookupKey l1 k = none) : lookupKey (l1 ++ l2) k = lookupKey l2 k := by
  induction l1 with
  | nil => rfl
  | cons a t ih =>
    obtain ⟨a1, a2⟩ := a
    by_cases ha : a1 = k
    · simp [lookupKey, ha] at h
    · simp only [lookupKey, List.cons_append, if_neg ha] at h ⊢
      exact ih h

/-- Lookup finds a key already present in the first block. -/
theorem lookupKey_append_some (l1 l2 : List (String × PyVal)) (k : String) (v : PyVal)
    (h : lookupKey l1 k = some v) : lookupKey (l1 ++ l2) k = some v := by
  induction l1 with
  | nil => simp [lookupKey] at h
  | cons a t ih =>
    obtain ⟨a1, a2⟩ := a
    by_cases ha : a1 = k
    · simp only [lookupKey, List.cons_append, if_pos ha] at h ⊢
      exact h
    · simp only [lookupKey, List.cons_append, if_neg ha] at h ⊢
      exact ih h

/-- Every key the MFT block emits is `mft` or `mft_error`. -/
theorem mftSlot_keys (env : Env) (od td ext fmt : String) (sm : Bool) (i : Nat) :
    ∀ p ∈ (mftSlot env od td ext fmt sm i).1, p.1 = "mft" ∨ p.1 = "mft_error" := by
  intro p hp
  by_cases hsm : sm = true
  · simp [mftSlot, hsm] at hp
  · by_cases hx : env.img.extractMft i = true
    · simp [mftSlot, hsm, hx] at hp
      split at hp
      · simp at hp
        simp [hp]
      · simp at hp
        simp [hp]
    · simp [mftSlot, hsm, hx] at hp

/-- Every key the UsnJrnl block emits is `usnjrnl` or `usnjrnl_error`. -/
theorem usnSlot_keys (env : Env) (od td ext fmt : String) (sm su : Bool) (i : Nat) :
    ∀ p ∈ (usnSlot env od td ext fmt sm su i).1, p.1 = "usnjrnl" ∨ p.1 = "usnjrnl_error" := by
  intro p hp
  by_cases hsu : su = true
  · simp [usnSlot, hsu] at hp
  · by_cases hx : env.img.extractUsnjrnl i = true
    · simp [usnSlot, hsu, hx] at hp
      split at hp
      · simp at hp
        simp [hp]
      · simp at hp
        simp [hp]
    · simp [usnSlot, hsu, hx] at hp

/-- Every key the LogFile block emits is `logfile` or `logfile_error`. -/
theorem logSlot_keys (env : Env) (od td ext fmt : String) (sl : Bool) (i : Nat) :
    ∀ p ∈ (logSlot env od td ext fmt sl i).1, p.1 = "logfile" ∨ p.1 = "logfile_error" := by
  intro p hp
  by_cases hsl : sl = true
  · simp [logSlot, hsl] at hp
  · by_cases hx : env.img.extractLogfile i = true
    · simp [logSlot, hsl, hx] at hp
      split at hp
      · simp at hp
        simp [hp]
      · simp at hp
        simp [hp]
    · simp [logSlot, hsl, hx] at hp

/-- The `analyzed` dictionary of a partition entry is the concatenation
of the three artifact blocks, looked up left to right. -/
theorem analyzed_lookup (env : Env) (od td ext fmt : String) (sm su sl : Bool)
    (i : Nat) (k : String) :
    getKey2 (analyzePartition env od td ext fmt sm su sl i).1 "analyzed" k =
      lookupKey ((mftSlot env od td ext fmt sm i).1
        ++ (usnSlot env od td ext fmt sm su i).1
        ++ (logSlot env od td ext fmt sl i).1) k := by
  simp [analyzePartition, getKey2, getKey, lookupKey]

/-- MFT block when extraction fails: empty, no decoder call. -/
theorem mftSlot_not_extracted (env : Env) (od td ext fmt : String) (i : Nat)
    (hx : env.img.extractMft i = false) :
    (mftSlot env od td ext fmt false i).1 = [] := by
  simp [mftSlot, hx]

/-- MFT block when the decoder raises: a single error entry. -/
theorem mftSlot_error (env : Env) (od td ext fmt : String) (i : Nat) (e : String)
    (hx : env.img.extractMft i = true)
    (hr : env.mft.run (td ++ "/partition" ++ toString i ++ "_MFT")
      (od ++ "/partition" ++ toString i ++ "_MFT" ++ ext) true fmt true = .error e) :
    (mftSlot env od td ext fmt false i).1 = [("mft_error", .vStr e)] := by
  simp [mftSlot, hx, hr]

/-- MFT block when the decoder succeeds: a single output-path entry. -/
theorem mftSlot_ok (env : Env) (od td ext fmt : String) (i : Nat)
    (hx : env.img.extractMft i = true)
    (hr : env.mft.run (td ++ "/partition" ++ toString i ++ "_MFT")
      (od ++ "/partition" ++ toString i ++ "_MFT" ++ ext) true fmt true = .ok ()) :
    (mftSlot env od td ext fmt false i).1 =
      [("mft", .vStr (od ++ "/partition" ++ toString i ++ "_MFT" ++ ext))] := by
  simp [mftSlot, hx, hr]

/-- UsnJrnl block when extraction fails: empty, no decoder call. -/
theorem usnSlot_not_extracted (env : Env) (od td ext fmt : String) (i : Nat)
    (hx : env.img.extractUsnjrnl i = false) :
    (usnSlot env od td ext fmt false false i).1 = [] := by
  simp [usnSlot, hx]

/-- UsnJrnl block when the decoder raises: a single error entry. -/
theorem usnSlot_error (env : Env) (od td ext fmt : String) (i : Nat) (e : String)
    (hx : env.img.extractUsnjrnl i = true)
    (hr : env.usn.run (td ++ "/partition" ++ toString i ++ "_UsnJrnl_J")
      (od ++ "/partition" ++ toString i ++ "_UsnJrnl" ++ ext)
      (if env.img.tempMftExists i = true
        then some (td ++ "/partition" ++ toString i ++ "_MFT") else none)
      fmt
      (pyTruthy (if env.img.tempMftExists i = true
        then some (td ++ "/partition" ++ toString i ++ "_MFT") else none)) = .error e) :
    (usnSlot env od td ext fmt false false i).1 = [("usnjrnl_error", .vStr e)] := by
  cases ht : env.img.tempMftExists i with
  | true =>
    rw [ht] at hr
    simp at hr
    simp [usnSlot, hx, ht, hr]
  | false =>
    rw [ht] at hr
    simp at hr
    simp [usnSlot, hx, ht, hr]

/-- UsnJrnl block when the decoder succeeds: a single output-path
entry. -/
theorem usnSlot_ok (env : Env) (od td ext fmt : String) (i : Nat)
    (hx : env.img.extractUsnjrnl i = true)
    (hr : env.usn.run (td ++ "/partition" ++ toString i ++ "_UsnJrnl_J")
      (od ++ "/partition" ++ toString i ++ "_UsnJrnl" ++ ext)
      (if env.img.tempMftExists i = true
        then some (td ++ "/partition" ++ toString i ++ "_MFT") else none)
      fmt
      (pyTruthy (if env.img.tempMftExists i = true
        then some (td ++ "/partition" ++ toString i ++ "_MFT") else none)) = .ok ()) :
    (usnSlot env od td ext fmt false false i).1 =
      [("usnjrnl", .vStr (od ++ "/partition" ++ toString i ++ "_UsnJrnl" ++ ext))] := by
  cases ht : env.img.tempMftExists i with
  | true =>
    rw [ht] at hr
    simp at hr
    simp [usnSlot, hx, ht, hr]
  | false =>
    rw [ht] at hr
    simp at hr
    simp [usnSlot, hx, ht, hr]

/-- LogFile block when extraction fails: empty, no decoder call. -/
theorem logSlot_not_extracted (env : Env) (od td ext fmt : String) (i : Nat)
    (hx : env.img.extractLogfile i = false) :
    (logSlot env od td ext fmt false i).1 = [] := by
  simp [logSlot, hx]

/-- LogFile block when the decoder raises: a single error entry. -/
theorem logSlot_error (env : Env) (od td ext fmt : String) (i : Nat) (e : String)
    (hx : env.img.extractLogfile i = true)
    (hr : env.log.run (td ++ "/partition" ++ toString i ++ "_LogFile")
      (od ++ "/partition" ++ toString i ++ "_LogFile"
        ++ (if fmt == "sqlite" then ".csv" else ext))
      (if fmt == "sqlite" then "csv" else fmt) = .error e) :
    (logSlot env od td ext fmt false i).1 = [("logfile_error", .vStr e)] := by
  by_cases hq : (fmt == "sqlite") = true
  · rw [hq] at hr
    simp at hr
    simp [logSlot, hx, hq, hr]
  · rw [Bool.not_eq_true] at hq
    rw [hq] at hr
    simp at hr
    simp [logSlot, hx, hq, hr]

/-- LogFile block when the decoder succeeds: a single output-path
entry. -/
theorem logSlot_ok (env : Env) (od td ext fmt : String) (i : Nat)
    (hx : env.img.extractLogfile i = true)
    (hr : env.log.run (td ++ "/partition" ++ toString i ++ "_LogFile")
      (od ++ "/partition" ++ toString i ++ "_LogFile"
        ++ (if fmt == "sqlite" then ".csv" else ext))
      (if fmt == "sqlite" then "csv" else fmt) = .ok ()) :
    (logSlot env od td ext fmt false i).1 =
      [("logfile", .vStr (od ++ "/partition" ++ toString i ++ "_LogFile"
        ++ (if fmt == "sqlite" then ".csv" else ext)))] := by
  by_cases hq : (fmt == "sqlite") = true
  · rw [hq] at hr
    simp at hr
    simp [logSlot, hx, hq, hr]
  · rw [Bool.not_eq_true] at hq
    rw [hq] at hr
    simp at hr
    simp [logSlot, hx, hq, hr]

/-- The MFT block never contributes a key other than its own two. -/
theorem lookupKey_mft_none (env : Env) (od td ext fmt : String) (j : Nat) (k : String)
    (h1 : k ≠ "mft") (h2 : k ≠ "mft_error") :
    lookupKey (mftSlot env od td ext fmt false j).1 k = none := by
  apply lookupKey_eq_none_of
  intro p hp
  rcases mftSlot_keys env od td ext fmt false j p hp with hh | hh
  · rw [hh]
    exact fun z => h1 z.symm
  · rw [hh]
    exact fun z => h2 z.symm

/-- The UsnJrnl block never contributes a key other than its own two. -/
theorem lookupKey_usn_none (env : Env) (od td ext fmt : String) (j : Nat) (k : String)
    (h1 : k ≠ "usnjrnl") (h2 : k ≠ "usnjrnl_error") :
    lookupKey (usnSlot env od td ext fmt false false j).1 k = none := by
  apply lookupKey_eq_none_of
  intro p hp
  rcases usnSlot_keys env od td ext fmt false false j p hp with hh | hh
  · rw [hh]
    exact fun z => h1 z.symm
  · rw [hh]
    exact fun z => h2 z.symm

/-- The LogFile block never contributes a key other than its own two. -/
theorem lookupKey_log_none (env : Env) (od td ext fmt : String) (j : Nat) (k : String)
    (h1 : k ≠ "logfile") (h2 : k ≠ "logfile_error") :
    lookupKey (logSlot env od td ext fmt false j).1 k = none := by
  apply lookupKey_eq_none_of
  intro p hp
  rcases logSlot_keys env od td ext fmt false j p hp with hh | hh
  · rw [hh]
    exact fun z => h1 z.symm
  · rw [hh]
    exact fun z => h2 z.symm

/-- Lookup of either UsnJrnl or LogFile key past the two other blocks. -/
theorem lookupKey_usn_log_none (env : Env) (od td ext fmt : String) (j : Nat) (k : String)
    (h1 : k ≠ "usnjrnl") (h2 : k ≠ "usnjrnl_error")
    (h3 : k ≠ "logfile") (h4 : k ≠ "logfile_error") :
    lookupKey ((usnSlot env od td ext fmt false false j).1
      ++ (logSlot env od td ext fmt false j).1) k = none := by
  rw [lookupKey_append_none _ _ _ (lookupKey_usn_none env od td ext fmt j k h1 h2)]
  exact lookupKey_log_none env od td ext fmt j k h3 h4

/-- Lookup at a cons whose head key matches. -/
theorem lookupKey_cons_eq (k : String) (v : PyVal) (l : List (String × PyVal)) :
    lookupKey ((k, v) :: l) k = some v := by
  simp [lookupKey]

/-- Lookup at a cons whose head key differs. -/
theorem lookupKey_cons_ne (k1 k : String) (v : PyVal) (l : List (String × PyVal))
    (h : k1 ≠ k) : lookupKey ((k1, v) :: l) k = lookupKey l k := by
  simp [lookupKey, h]

/-- C2: in `extract_from_image` and `extract_and_analyze`, a failure
affecting a single artifact — an extraction call returning false, or a
decoder exception for one artifact — is recorded only in that artifact's
slot of the per-partition entry (omitted from `extracted`, or stored
under `mft_error` / `usnjrnl_error` / `logfile_error`), while every
partition still receives its entry and the top-level result keeps
`success = true`. -/
theorem artifact_failure_isolation (env : Env) (ipath od td ext fmt : String)
    (parts : List Partition) (j : Nat)
    (hg : env.img.importOk = true) (hm : env.mft.importOk = true)
    (hu : env.usn.importOk = true) (hl : env.log.importOk = true)
    (hex : env.fs.pathExists ipath = true)
    (hfind : env.img.findPartitions ipath = .ok parts)
    (hfmt : fullFormats.contains fmt = true) :
    ((extract_from_image env ipath od none false).result = .ok (.vDict
      [("success", .vBool true),
       ("partitions", .vList (parts.enum.map (fun q => extractPartition env od q.1 q.2))),
       ("total_partitions", .vNat parts.length)])) ∧
    (∀ part : Partition,
      getKey2 (extractPartition env od j part) "extracted" "mft" =
        (if env.img.extractMft j
          then some (.vStr (od ++ "/partition" ++ toString j ++ "_MFT")) else none) ∧
      getKey2 (extractPartition env od j part) "extracted" "logfile" =
        (if env.img.extractLogfile j
          then some (.vStr (od ++ "/partition" ++ toString j ++ "_LogFile")) else none) ∧
      getKey2 (extractPartition env od j part) "extracted" "usnjrnl" =
        (if env.img.extractUsnjrnl j
          then some (.vStr (od ++ "/partition" ++ toString j ++ "_UsnJrnl_J")) else none)) ∧
    (∃ d, (extract_and_analyze env ipath od fmt none false false false false).result = .ok d ∧
      getKey d "success" = some (.vBool true) ∧
      getKey d "partitions" = some (.vList
        ((parts.enum.map (fun q => analyzePartition env od (od ++ "/temp_extracted")
          (if fmt == "sqlite" then ".db" else "." ++ fmt) fmt false false false q.1)).map
            Prod.fst))) ∧
    (env.img.extractMft j = false →
      getKey2 (analyzePartition env od td ext fmt false false false j).1 "analyzed" "mft" = none ∧
      getKey2 (analyzePartition env od td ext fmt false false false j).1 "analyzed" "mft_error" = none) ∧
    (∀ e, env.img.extractMft j = true →
      env.mft.run (td ++ "/partition" ++ toString j ++ "_MFT")
        (od ++ "/partition" ++ toString j ++ "_MFT" ++ ext) true fmt true = .error e →
      getKey2 (analyzePartition env od td ext fmt false false false j).1 "analyzed" "mft_error" =
        some (.vStr e) ∧
      getKey2 (analyzePartition env od td ext fmt false false false j).1 "analyzed" "mft" = none) ∧
    (env.img.extractMft j = true →
      env.mft.run (td ++ "/partition" ++ toString j ++ "_MFT")
        (od ++ "/partition" ++ toString j ++ "_MFT" ++ ext) true fmt true = .ok () →
      getKey2 (analyzePartition env od td ext fmt false false false j).1 "analyzed" "mft" =
        some (.vStr (od ++ "/partition" ++ toString j ++ "_MFT" ++ ext))) ∧
    (env.img.extractUsnjrnl j = false →
      getKey2 (analyzePartition env od td ext fmt false false false j).1 "analyzed" "usnjrnl" = none ∧
      getKey2 (analyzePartition env od td ext fmt false false false j).1 "analyzed" "usnjrnl_error" = none) ∧
    (∀ e, env.img.extractUsnjrnl j = true →
      env.usn.run (td ++ "/partition" ++ toString j ++ "_UsnJrnl_J")
        (od ++ "/partition" ++ toString j ++ "_UsnJrnl" ++ ext)
        (if env.img.tempMftExists j = true
          then some (td ++ "/partition" ++ toString j ++ "_MFT") else none)
        fmt
        (pyTruthy (if env.img.tempMftExists j = true
          then some (td ++ "/partition" ++ toString j ++ "_MFT") else none)) = .error e →
      getKey2 (analyzePartition env od td ext fmt false false false j).1 "analyzed" "usnjrnl_error" =
        some (.vStr e) ∧
      getKey2 (analyzePartition env od td ext fmt false false false j).1 "analyzed" "usnjrnl" = none) ∧
    (env.img.extractUsnjrnl j = true →
      env.usn.run (td ++ "/partition" ++ toString j ++ "_UsnJrnl_J")
        (od ++ "/partition" ++ toString j ++ "_UsnJrnl" ++ ext)
        (if env.img.tempMftExists j = true
          then some (td ++ "/partition" ++ toString j ++ "_MFT") else none)
        fmt
        (pyTruthy (if env.img.tempMftExists j = true
          then some (td ++ "/partition" ++ toString j ++ "_MFT") else none)) = .ok () →
      getKey2 (analyzePartition env od td ext fmt false false false j).1 "analyzed" "usnjrnl" =
        some (.vStr (od ++ "/partition" ++ toString j ++ "_UsnJrnl" ++ ext))) ∧
    (env.img.extractLogfile j = false →
      getKey2 (analyzePartition env od td ext fmt false false false j).1 "analyzed" "logfile" = none ∧
      getKey2 (analyzePartition env od td ext fmt false false false j).1 "analyzed" "logfile_error" = none) ∧
    (∀ e, env.img.extractLogfile j = true →
      env.log.run (td ++ "/partition" ++ toString j ++ "_LogFile")
        (od ++ "/partition" ++ toString j ++ "_LogFile"
          ++ (if fmt == "sqlite" then ".csv" else ext))
        (if fmt == "sqlite" then "csv" else fmt) = .error e →
      getKey2 (analyzePartition env od td ext fmt false false false j).1 "analyzed" "logfile_error" =
        some (.vStr e) ∧
      getKey2 (analyzePartition env od td ext fmt false false false j).1 "analyzed" "logfile" = none) ∧
    (env.img.extractLogfile j = true →
      env.log.run (td ++ "/partition" ++ toString j ++ "_LogFile")
        (od ++ "/partition" ++ toString j ++ "_LogFile"
          ++ (if fmt == "sqlite" then ".csv" else ext))
        (if fmt == "sqlite" then "csv" else fmt) = .ok () →
      getKey2 (analyzePartition env od td ext fmt false false false j).1 "analyzed" "logfile" =
        some (.vStr (od ++ "/partition" ++ toString j ++ "_LogFile"
          ++ (if fmt == "sqlite" then ".csv" else ext)))) := by
  have hfmt' : fmt ∈ fullFormats := by simpa using hfmt
  refine ⟨?_, ?_, ?_, ?_, ?_, ?_, ?_, ?_, ?_, ?_, ?_, ?_⟩
  · simp [extract_from_image, hg, hex, hfind]
  · intro part
    by_cases h1 : env.img.extractMft j = true <;>
      by_cases h2 : env.img.extractLogfile j = true <;>
        by_cases h3 : env.img.extractUsnjrnl j = true <;>
          refine ⟨?_, ?_, ?_⟩ <;>
            simp [extractPartition, getKey2, getKey, lookupKey, h1, h2, h3]
  · refine ⟨.vDict
      ([("success", .vBool true),
        ("partitions", .vList
          ((parts.enum.map (fun q => analyzePartition env od (od ++ "/temp_extracted")
            (if fmt == "sqlite" then ".db" else "." ++ fmt) fmt false false false q.1)).map
              Prod.fst))]
       ++ [("temp_cleaned", .vBool env.rmtreeOk)]
       ++ [("elapsed_seconds", .vNat env.elapsed), ("output_dir", .vStr od)]), ?_, ?_, ?_⟩
    · simp [extract_and_analyze, hg, hm, hu, hl, hex, hfmt', hfind]
    · simp [getKey, lookupKey]
    · simp [getKey, lookupKey]
  · intro hx
    constructor
    · rw [analyzed_lookup, mftSlot_not_extracted env od td ext fmt j hx, List.nil_append]
      exact lookupKey_usn_log_none env od td ext fmt j "mft"
        (by decide) (by decide) (by decide) (by decide)
    · rw [analyzed_lookup, mftSlot_not_extracted env od td ext fmt j hx, List.nil_append]
      exact lookupKey_usn_log_none env od td ext fmt j "mft_error"
        (by decide) (by decide) (by decide) (by decide)
  · intro e hx hr
    constructor
    · rw [analyzed_lookup, mftSlot_error env od td ext fmt j e hx hr,
        List.singleton_append, List.cons_append]
      exact lookupKey_cons_eq _ _ _
    · rw [analyzed_lookup, mftSlot_error env od td ext fmt j e hx hr,
        List.singleton_append, List.cons_append,
        lookupKey_cons_ne "mft_error" "mft" (PyVal.vStr e) _ (by decide)]
      exact lookupKey_usn_log_none env od td ext fmt j "mft"
        (by decide) (by decide) (by decide) (by decide)
  · intro hx hr
    rw [analyzed_lookup, mftSlot_ok env od td ext fmt j hx hr,
      List.singleton_append, List.cons_append]
    exact lookupKey_cons_eq _ _ _
  · intro hx
    constructor
    · rw [analyzed_lookup, List.append_assoc,
        lookupKey_append_none _ _ "usnjrnl"
          (lookupKey_mft_none env od td ext fmt j "usnjrnl" (by decide) (by decide)),
        lookupKey_append_none _ _ "usnjrnl"
          (by rw [usnSlot_not_extracted env od td ext fmt j hx]; rfl)]
      exact lookupKey_log_none env od td ext fmt j "usnjrnl" (by decide) (by decide)
    · rw [analyzed_lookup, List.append_assoc,
        lookupKey_append_none _ _ "usnjrnl_error"
          (lookupKey_mft_none env od td ext fmt j "usnjrnl_error" (by decide) (by decide)),
        lookupKey_append_none _ _ "usnjrnl_error"
          (by rw [usnSlot_not_extracted env od td ext fmt j hx]; rfl)]
      exact lookupKey_log_none env od td ext fmt j "usnjrnl_error" (by decide) (by decide)
  · intro e hx hr
    constructor
    · rw [analyzed_lookup, List.append_assoc,
        lookupKey_append_none _ _ "usnjrnl_error"
          (lookupKey_mft_none env od td ext fmt j "usnjrnl_error" (by decide) (by decide)),
        usnSlot_error env od td ext fmt j e hx hr,
        List.singleton_append]
      exact lookupKey_cons_eq _ _ _
    · rw [analyzed_lookup, List.append_assoc,
        lookupKey_append_none _ _ "usnjrnl"
          (lookupKey_mft_none env od td ext fmt j "usnjrnl" (by decide) (by decide)),
        usnSlot_error env od td ext fmt j e hx hr,
        List.singleton_append,
        lookupKey_cons_ne "usnjrnl_error" "usnjrnl" (PyVal.vStr e) _ (by decide)]
      exact lookupKey_log_none env od td ext fmt j "usnjrnl" (by decide) (by decide)
  · intro hx hr
    rw [analyzed_lookup, List.append_assoc,
      lookupKey_append_none _ _ "usnjrnl"
        (lookupKey_mft_none env od td ext fmt j "usnjrnl" (by decide) (by decide)),
      usnSlot_ok env od td ext fmt j hx hr,
      List.singleton_append]
    exact lookupKey_cons_eq _ _ _
  · intro hx
    constructor
    · rw [analyzed_lookup, List.append_assoc,
        lookupKey_append_none _ _ "logfile"
          (lookupKey_mft_none env od td ext fmt j "logfile" (by decide) (by decide)),
        lookupKey_append_none _ _ "logfile"
          (lookupKey_usn_none env od td ext fmt j "logfile" (by decide) (by decide)),
        logSlot_not_extracted env od td ext fmt j hx]
      rfl
    · rw [analyzed_lookup, List.append_assoc,
        lookupKey_append_none _ _ "logfile_error"
          (lookupKey_mft_none env od td ext fmt j "logfile_error" (by decide) (by decide)),
        lookupKey_append_none _ _ "logfile_error"
          (lookupKey_usn_none env od td ext fmt j "logfile_error" (by decide) (by decide)),
        logSlot_not_extracted env od td ext fmt j hx]
      rfl
  · intro e hx hr
    constructor
    · rw [analyzed_lookup, List.append_assoc,
        lookupKey_append_none _ _ "logfile_error"
          (lookupKey_mft_none env od td ext fmt j "logfile_error" (by decide) (by decide)),
        lookupKey_append_none _ _ "logfile_error"
          (lookupKey_usn_none env od td ext fmt j "logfile_error" (by decide) (by decide)),
        logSlot_error env od td ext fmt j e hx hr]
      simp [lookupKey]
    · rw [analyzed_lookup, List.append_assoc,
        lookupKey_append_none _ _ "logfile"
          (lookupKey_mft_none env od td ext fmt j "logfile" (by decide) (by decide)),
        lookupKey_append_none _ _ "logfile"
          (lookupKey_usn_none env od td ext fmt j "logfile" (by decide) (by decide)),
        logSlot_error env od td ext fmt j e hx hr]
      simp [lookupKey]
  · intro hx hr
    rw [analyzed_lookup, List.append_assoc,
      lookupKey_append_none _ _ "logfile"
        (lookupKey_mft_none env od td ext fmt j "logfile" (by decide) (by decide)),
      lookupKey_append_none _ _ "logfile"
        (lookupKey_usn_none env od td ext fmt j "logfile" (by decide) (by decide)),
      logSlot_ok env od td ext fmt j hx hr]
    simp [lookupKey]

/-- C2 witness: with one partition in a benign environment, extraction
succeeds everywhere and the MFT analysis output lands in its slot. -/
theorem artifact_failure_isolation_witness :
    getKey2 (analyzePartition envW "out" "td" ".csv" "csv" false false false 0).1
        "analyzed" "mft" =
      some (.vStr ("out" ++ "/partition" ++ toString 0 ++ "_MFT" ++ ".csv")) := by
  have h := artifact_failure_isolation envW "img" "out" "td" ".csv" "csv"
    [⟨4096, 4096⟩] 0 rfl rfl rfl rfl rfl rfl (by decide)
  exact h.2.2.2.2.2.1 rfl rfl

/-- A concrete two-slot MFT buffer: one clean in-use record and one slot
with a bad magic signature. -/
def slotsW : List RawSlot :=
  [⟨true, true, true, 0⟩, ⟨false, true, false, 1⟩]

/-- C3: decoding a well-formed MFT buffer of N fixed-size slots yields
exactly N records with corrupted and unallocated slots flagged rather
than dropped (modelled from the spec, the decoder being outside this
repository); `get_total_entries` is the buffer length divided by the
fixed record size, which equals N; and a success result of `parse_mft`
reports exactly this value as `total_entries`. -/
theorem mft_slot_count_and_total_entries (env : Env) (slots : List RawSlot)
    (i o fmt : String) (ao ip : Bool) (N : Nat)
    (hrs : 0 < env.mft.recordSize)
    (hbuf : env.fs.fileBytes i = N * env.mft.recordSize)
    (hslots : slots.length = N) :
    (decodeMFT slots).length = N ∧
    (∀ s ∈ slots,
      (s.magicOk = false → (decodeSlot s).flag = .unallocCorrupt) ∧
      (s.magicOk = true → s.fixupOk = false → (decodeSlot s).flag = .corrupted) ∧
      (s.magicOk = true → s.fixupOk = true → (decodeSlot s).flag = .ok)) ∧
    get_total_entries env i = N ∧
    (∀ d, (parse_mft env i o fmt ao ip).result = .ok d →
      getKey d "success" = some (.vBool true) →
      getKey d "total_entries" = some (.vNat N)) := by
  have htot : get_total_entries env i = N := by
    unfold get_total_entries
    rw [hbuf]
    exact Nat.mul_div_cancel N hrs
  refine ⟨by simp [decodeMFT, hslots], ?_, htot, ?_⟩
  · intro s _
    refine ⟨?_, ?_, ?_⟩
    · intro h1
      simp [decodeSlot, h1]
    · intro h1 h2
      simp [decodeSlot, h1, h2]
    · intro h1 h2
      simp [decodeSlot, h1, h2]
  · intro d hd hs
    unfold parse_mft at hd
    split at hd
    · simp at hd
    · split at hd
      · simp at hd
        subst hd
        simp [failDict, getKey, lookupKey] at hs
      · split at hd
        · simp at hd
          subst hd
          simp [failDict, getKey, lookupKey] at hs
        · split at hd
          · simp at hd
            subst hd
            simp [failDict, getKey, lookupKey] at hs
          · split at hd
            · simp at hd
              subst hd
              simp [failDict, getKey, lookupKey] at hs
            · simp at hd
              subst hd
              simp [getKey, lookupKey, htot]

/-- C3 witness: a concrete two-slot buffer of 1024-byte records in a
2048-byte file decodes to two records and reports two total entries. -/
theorem mft_slot_count_and_total_entries_witness :
    (decodeMFT slotsW).length = 2 ∧ get_total_entries envW "f" = 2 := by
  have h := mft_slot_count_and_total_entries envW slotsW "f" "o" "csv" false true 2
    (by decide) rfl rfl
  exact ⟨h.1, h.2.2.1⟩

/-- C7: `parse_mft` invokes the decoder with `include_deleted` equal to
the negation of `active_only`; and (modelled from the spec, the decoder
being outside this repository) the flag is a visibility filter only —
every slot is decoded regardless of its in-use flag, with
`include_deleted = true` surfacing all decoded records, and any surfaced
record under any flag value being one of the decoded records.
`extract_and_analyze` always passes `include_deleted = true`. -/
theorem include_deleted_visibility (env : Env) (i o fmt : String) (ao ip : Bool)
    (slots : List RawSlot) (od td ext : String) (j : Nat) (su sl : Bool)
    (hm : env.mft.importOk = true) (hi : env.fs.pathExists i = true)
    (hfmt : fullFormats.contains fmt = true)
    (hnew : env.mft.newOk i = .ok ()) :
    (parse_mft env i o fmt ao ip).calls =
      [.mftParserNew i, .parseMftFile i o (!ao) fmt ip] ∧
    surfacedRecords slots true = decodeMFT slots ∧
    (∀ b r, r ∈ surfacedRecords slots b → r ∈ decodeMFT slots) ∧
    (∀ b r, r ∈ decodeMFT slots → (b || r.inUse) = true → r ∈ surfacedRecords slots b) ∧
    (env.img.extractMft j = true →
      ∃ rest, (analyzePartition env od td ext fmt false su sl j).2 =
        .parseMftFile (td ++ "/partition" ++ toString j ++ "_MFT")
          (od ++ "/partition" ++ toString j ++ "_MFT" ++ ext) true fmt true :: rest) := by
  have hfmt' : fmt ∈ fullFormats := by simpa using hfmt
  refine ⟨?_, ?_, ?_, ?_, ?_⟩
  · cases hr : env.mft.run i o (!ao) fmt ip with
    | error e => simp [parse_mft, hm, hi, hfmt', hnew, hr]
    | ok u => simp [parse_mft, hm, hi, hfmt', hnew, hr]
  · simp [surfacedRecords]
  · intro b r hr
    unfold surfacedRecords at hr
    exact (List.mem_filter.1 hr).1
  · intro b r hmem hb
    unfold surfacedRecords
    exact List.mem_filter.2 ⟨hmem, hb⟩
  · intro hx
    cases hr : env.mft.run (td ++ "/partition" ++ toString j ++ "_MFT")
        (od ++ "/partition" ++ toString j ++ "_MFT" ++ ext) true fmt true with
    | error e =>
      exact ⟨(usnSlot env od td ext fmt false su j).2 ++ (logSlot env od td ext fmt sl j).2,
        by simp [analyzePartition, mftSlot, hx, hr]⟩
    | ok u =>
      exact ⟨(usnSlot env od td ext fmt false su j).2 ++ (logSlot env od td ext fmt sl j).2,
        by simp [analyzePartition, mftSlot, hx, hr]⟩

/-- C7 witness: with `active_only = true` the decoder receives
`include_deleted = false`, and surfacing with `include_deleted = true`
returns every decoded record of the concrete buffer. -/
theorem include_deleted_visibility_witness :
    (parse_mft envW "f" "o" "csv" true true).calls =
      [.mftParserNew "f", .parseMftFile "f" "o" false "csv" true] ∧
    surfacedRecords slotsW true = decodeMFT slotsW := by
  have h := include_deleted_visibility envW "f" "o" "csv" true true slotsW
    "od" "td" ".csv" 0 false false rfl rfl (by decide) rfl
  exact ⟨h.1, h.2.1⟩

/-- C6: when handling the image raises an `ImportError` (the optional
forensic-container codec is unavailable), `extract_from_image` and
`extract_and_analyze` return a failure result naming the missing
dependency instead of raising; and the remaining operations are
structurally unaffected — their results are identical under any change
of the image-handling oracle. -/
theorem missing_codec_nonfatal (env : Env) (ipath od fmt : String) (p : Option Int)
    (vb sm su sl kt : Bool) (msg i o : String) (m mp up lp : Option String)
    (ao ip2 : Bool) (fs : FsEnv) (mft : MftEnv) (usn : UsnEnv) (log : LogEnv)
    (i1 i2 : ImgEnv) (ana : AnaEnv) (el : Nat) (rt : Bool)
    (hg : env.img.importOk = true)
    (hm : env.mft.importOk = true) (hu : env.usn.importOk = true)
    (hl : env.log.importOk = true)
    (hex : env.fs.pathExists ipath = true)
    (hfmt : fullFormats.contains fmt = true)
    (hfind : env.img.findPartitions ipath = .error (.importErr msg)) :
    (extract_from_image env ipath od p vb).result =
      .ok (failDict ("Missing dependency: " ++ msg
        ++ ". For E01 support, install: pip install pyewf-python")) ∧
    (extract_and_analyze env ipath od fmt p sm su sl kt).result =
      .ok (failDict ("Missing dependency: " ++ msg)) ∧
    parse_mft ⟨fs, mft, usn, log, i1, ana, el, rt⟩ i o fmt ao ip2 =
      parse_mft ⟨fs, mft, usn, log, i2, ana, el, rt⟩ i o fmt ao ip2 ∧
    parse_usnjrnl ⟨fs, mft, usn, log, i1, ana, el, rt⟩ i o fmt m =
      parse_usnjrnl ⟨fs, mft, usn, log, i2, ana, el, rt⟩ i o fmt m ∧
    parse_logfile ⟨fs, mft, usn, log, i1, ana, el, rt⟩ i o fmt =
      parse_logfile ⟨fs, mft, usn, log, i2, ana, el, rt⟩ i o fmt ∧
    analyze_artifacts ⟨fs, mft, usn, log, i1, ana, el, rt⟩ od fmt mp up lp =
      analyze_artifacts ⟨fs, mft, usn, log, i2, ana, el, rt⟩ od fmt mp up lp := by
  have hfmt' : fmt ∈ fullFormats := by simpa using hfmt
  refine ⟨?_, ?_, rfl, rfl, rfl, rfl⟩
  · simp [extract_from_image, hg, hex, hfind]
  · simp [extract_and_analyze, hg, hm, hu, hl, hex, hfmt', hfind]

/-- C6 witness: at the concrete environment whose image handler raises
an ImportError for the pyewf codec. -/
theorem missing_codec_nonfatal_witness :
    (extract_from_image envNoCodec "img" "out" none false).result =
      .ok (failDict ("Missing dependency: " ++ "No module named pyewf"
        ++ ". For E01 support, install: pip install pyewf-python")) := by
  have h := missing_codec_nonfatal envNoCodec "img" "out" "csv" none
    false false false false false "No module named pyewf" "i" "o" none none none none
    false false envNoCodec.fs envNoCodec.mft envNoCodec.usn envNoCodec.log
    envNoCodec.img envNoCodec.img envNoCodec.ana 1 true
    rfl rfl rfl rfl rfl (by decide) rfl
  exact h.1

/-- C9: in `extract_and_analyze` with `output_format = "sqlite"` the
extension for analyzed outputs is `.db` and the LogFile artifact alone is
downgraded — its decoder is invoked with format `csv` and an output path
ending in `.csv`, while the MFT and UsnJrnl outputs keep the sqlite
format with a `.db` extension — consistent with `parse_logfile`
rejecting the sqlite format outright. -/
theorem logfile_sqlite_downgrade (env : Env) (ipath od td x y : String)
    (parts : List Partition) (j : Nat) (sm su : Bool)
    (hg : env.img.importOk = true) (hm : env.mft.importOk = true)
    (hu : env.usn.importOk = true) (hl : env.log.importOk = true)
    (hex : env.fs.pathExists ipath = true)
    (hfind : env.img.findPartitions ipath = .ok parts)
    (hx : env.fs.pathExists x = true) :
    (∃ d, (extract_and_analyze env ipath od "sqlite" none sm su false false).result = .ok d ∧
      getKey d "success" = some (.vBool true) ∧
      getKey d "partitions" = some (.vList
        ((parts.enum.map (fun q => analyzePartition env od (od ++ "/temp_extracted")
          ".db" "sqlite" sm su false q.1)).map Prod.fst))) ∧
    (env.img.extractLogfile j = true →
      env.log.run (td ++ "/partition" ++ toString j ++ "_LogFile")
        (od ++ "/partition" ++ toString j ++ "_LogFile" ++ ".csv") "csv" = .ok () →
      getKey2 (analyzePartition env od td ".db" "sqlite" false false false j).1
          "analyzed" "logfile" =
        some (.vStr (od ++ "/partition" ++ toString j ++ "_LogFile" ++ ".csv"))) ∧
    (env.img.extractLogfile j = true →
      ∀ c ∈ (logSlot env od td ".db" "sqlite" false j).2,
        c = .parseLogfileFile (td ++ "/partition" ++ toString j ++ "_LogFile")
          (od ++ "/partition" ++ toString j ++ "_LogFile" ++ ".csv") "csv") ∧
    (env.img.extractMft j = true →
      env.mft.run (td ++ "/partition" ++ toString j ++ "_MFT")
        (od ++ "/partition" ++ toString j ++ "_MFT" ++ ".db") true "sqlite" true = .ok () →
      getKey2 (analyzePartition env od td ".db" "sqlite" false false false j).1
          "analyzed" "mft" =
        some (.vStr (od ++ "/partition" ++ toString j ++ "_MFT" ++ ".db"))) ∧
    (env.img.extractUsnjrnl j = true →
      env.usn.run (td ++ "/partition" ++ toString j ++ "_UsnJrnl_J")
        (od ++ "/partition" ++ toString j ++ "_UsnJrnl" ++ ".db")
        (if env.img.tempMftExists j = true
          then some (td ++ "/partition" ++ toString j ++ "_MFT") else none)
        "sqlite"
        (pyTruthy (if env.img.tempMftExists j = true
          then some (td ++ "/partition" ++ toString j ++ "_MFT") else none)) = .ok () →
      getKey2 (analyzePartition env od td ".db" "sqlite" false false false j).1
          "analyzed" "usnjrnl" =
        some (.vStr (od ++ "/partition" ++ toString j ++ "_UsnJrnl" ++ ".db"))) ∧
    ((parse_logfile env x y "sqlite").result =
      .ok (failDict "Invalid format: sqlite. LogFile supports csv or json only") ∧
     (parse_logfile env x y "sqlite").calls = []) := by
  refine ⟨?_, ?_, ?_, ?_, ?_, ?_, ?_⟩
  · refine ⟨.vDict
      ([("success", .vBool true),
        ("partitions", .vList
          ((parts.enum.map (fun q => analyzePartition env od (od ++ "/temp_extracted")
            ".db" "sqlite" sm su false q.1)).map Prod.fst))]
       ++ [("temp_cleaned", .vBool env.rmtreeOk)]
       ++ [("elapsed_seconds", .vNat env.elapsed), ("output_dir", .vStr od)]), ?_, ?_, ?_⟩
    · simp [extract_and_analyze, hg, hm, hu, hl, hex, hfind, fullFormats]
    · simp [getKey, lookupKey]
    · simp [getKey, lookupKey]
  · intro hxl hr
    have h2 := logSlot_ok env od td ".db" "sqlite" j hxl (by simpa using hr)
    simp at h2
    rw [analyzed_lookup, List.append_assoc,
      lookupKey_append_none _ _ "logfile"
        (lookupKey_mft_none env od td ".db" "sqlite" j "logfile" (by decide) (by decide)),
      lookupKey_append_none _ _ "logfile"
        (lookupKey_usn_none env od td ".db" "sqlite" j "logfile" (by decide) (by decide)),
      h2]
    simp [lookupKey]
  · intro hxl c hc
    simp [logSlot, hxl] at hc
    split at hc <;> simp at hc <;> exact hc
  · intro hx1 hr
    rw [analyzed_lookup, mftSlot_ok env od td ".db" "sqlite" j hx1 hr,
      List.singleton_append, List.cons_append]
    exact lookupKey_cons_eq _ _ _
  · intro hx1 hr
    rw [analyzed_lookup, List.append_assoc,
      lookupKey_append_none _ _ "usnjrnl"
        (lookupKey_mft_none env od td ".db" "sqlite" j "usnjrnl" (by decide) (by decide)),
      usnSlot_ok env od td ".db" "sqlite" j hx1 hr,
      List.singleton_append]
    exact lookupKey_cons_eq _ _ _
  · simp [parse_logfile, hl, hx, logFormats]
  · simp [parse_logfile, hl, hx, logFormats]

/-- C9 witness: with one partition in a benign environment under the
sqlite format, the LogFile output path ends in `.csv` while sqlite is
rejected by `parse_logfile`. -/
theorem logfile_sqlite_downgrade_witness :
    getKey2 (analyzePartition envW "out" "td" ".db" "sqlite" false false false 0).1
        "analyzed" "logfile" =
      some (.vStr ("out" ++ "/partition" ++ toString 0 ++ "_LogFile" ++ ".csv")) ∧
    (parse_logfile envW "x" "y" "sqlite").calls = [] := by
  have h := logfile_sqlite_downgrade envW "img" "out" "td" "x" "y"
    [⟨4096, 4096⟩] 0 false false rfl rfl rfl rfl rfl rfl rfl
  exact ⟨h.2.1 rfl rfl, h.2.2.2.2.2.2⟩
